import Mathlib

/-!
Shallow embedding of the session/event tracking state machine of
`src/addon/TabTracker.js` (the `TabTracker` prototype), together with proofs
about its behaviour.

Modelling conventions:
* The mutable `this._tabData` object is the `TabData` structure; absent object
  properties are `none`.  `this._openTabs` is a map `Nat → Option OpenTab`.
* SDK tab ids are non-empty strings, hence always truthy in JS; they are
  modelled as `Nat` with truthiness = presence of the `Option`.
* `String(uuid())` is modelled by a counter `nextUuid` threaded through the
  state: each generated id is the current counter value (fresh ids are the
  naturals not yet handed out).
* `absPerf.now()` is the `now` field of the ambient `Env`; timestamps are `Nat`
  and durations are computed in `Int` (JS subtraction of numbers).
* Reading a property of `undefined` (e.g. `this._openTabs[tab.id].url` when the
  tab is not in the table, or `tabs.activeTab.id` when there is no active tab)
  throws a TypeError in JS; fallible operations therefore return
  `Except JsError (TrackerState × List Emitted)`.
* `Services.obs.notifyObservers(...)` emissions are collected in the returned
  `List Emitted`; a session-complete notification carries the snapshot of
  `this._tabData` at the moment of `JSON.stringify`.
* JS truthiness: a string is truthy iff non-empty, a number iff non-zero.
-/

namespace TabTrackerModel

/-- A browser tab as reported by the SDK: `tab.id` and `tab.url`. -/
structure Tab where
  id : Nat
  url : String
deriving DecidableEq, Repr

/-- One row of `this._openTabs` (the live `tab` reference is irrelevant to the
tracking logic and omitted): stored `url` and `active` flag. -/
structure OpenTab where
  url : String
  active : Bool
deriving DecidableEq, Repr

/-- The store snapshot used by `onOpen` (PlacesStats) and by
`navigateAwayFromPage` (Highlights). -/
structure Store where
  highlightsError : Bool
  highlightsInit : Bool
  highlightsRows : Nat
  historySize : Int
  bookmarksSize : Int
deriving DecidableEq, Repr

/-- `this._tabData`: the single live session-state object.  Every field is a
JS object property that may be absent.  (`load_latency`, set only by the
`observe` handler, plays no role in the operations modelled here and is
omitted; `this._tabData.active` is never assigned anywhere in the file, so the
defensive `delete this._tabData.active` is a no-op and is omitted too.) -/
structure TabData where
  session_id : Option Nat := none
  url : Option String := none
  tab_id : Option Nat := none
  load_reason : Option String := none
  start_time : Option Nat := none
  unload_reason : Option String := none
  session_duration : Option Int := none
  total_history_size : Option Int := none
  total_bookmarks : Option Int := none
  highlights_size : Option Int := none
  action : Option String := none
  client_id : Option String := none
  addon_version : Option String := none
  locale : Option String := none
  page : Option String := none
  experiment_id : Option String := none
deriving DecidableEq, Repr

/-- The tracker's mutable state: `this._tabData`, `this._openTabs`, and the
uuid counter modelling `String(uuid())` freshness. -/
structure TrackerState where
  tabData : TabData
  openTabs : Nat → Option OpenTab
  nextUuid : Nat

/-- The ambient environment an event handler runs in: `tabs.activeTab`, the
`trackableURLs` list given to `init`, the redux `this._store` (absent when the
tracker was initialised without one), the monotonic clock `absPerf.now()`, and
the constant common-context values. -/
structure Env where
  activeTab : Option Tab
  trackableURLs : List String
  store : Option Store
  now : Nat
  clientID : String
  addonVersion : String
  locale : String
  experimentID : Option String

/-- A JS exception escaping a handler (property access on `undefined`). -/
inductive JsError where
  | typeError
deriving DecidableEq, Repr

/-- One `Services.obs.notifyObservers` emission.  A `sessionComplete` record
(`tab-session-complete`) carries the full `this._tabData` snapshot; the other
kinds carry the fields relevant to the proofs. -/
inductive Emitted where
  | sessionComplete (payload : TabData)
  | userAction (event : String) (tab_id : Nat) (session_id : Option Nat) (page : String)
  | undesired (event : String) (value : Int) (tab_id : Nat) (session_id : Option Nat) (page : String)
  | performance (event : String) (value : Int) (tab_id : Nat) (session_id : Option Nat) (page : String)
deriving DecidableEq, Repr

/-- JS truthiness of an optional string property: present and non-empty. -/
def strTruthy : Option String → Bool
  | none => false
  | some s => !(s = "")

/-- JS truthiness of an optional numeric property: present and non-zero. -/
def numTruthy : Option Int → Bool
  | none => false
  | some v => !(v = 0)

/-- `a || b` for a possibly-absent string property `a` and string `b`. -/
def jsOrS (a : Option String) (b : String) : String :=
  match a with
  | some s => if s = "" then b else s
  | none => b

/-- Pointwise update/removal in the `_openTabs` map. -/
def mapSet (m : Nat → Option OpenTab) (i : Nat) (v : Option OpenTab) : Nat → Option OpenTab :=
  fun j => if j = i then v else m j

/-- `String.prototype.split("#/")` on the character list (JS `split` with a
two-character separator, non-overlapping, keeping empty segments). -/
def splitHashSlash : List Char → List (List Char)
  | [] => [[]]
  | '#' :: '/' :: rest => [] :: splitHashSlash rest
  | c :: rest =>
    match splitHashSlash rest with
    | [] => [[c]]
    | h :: t => (c :: h) :: t

/-- Stand-in for `eventConstants.defaultPage` (defined in
`common/event-constants`, outside the tracker source). -/
def defaultPage : String := "NEW_TAB"

/-- `url.split("#/")[1] || eventConstants.defaultPage`. -/
def pageOf (url : String) : String :=
  jsOrS (((splitHashSlash url.data).map fun cs => String.mk cs).get? 1) defaultPage

/-- `String.prototype.toLowerCase()` on ASCII (the only inputs are the event
names `"SEARCH"` and `"CLICK"`). -/
def lowerChar (c : Char) : Char :=
  if 'A' ≤ c ∧ c ≤ 'Z' then Char.ofNat (c.toNat + 32) else c

/-- Lowercasing of a whole event name. -/
def toLowerStr (s : String) : String := String.mk (s.data.map lowerChar)

/-- `isActivityStreamsURL(URL)`: `this._trackableURLs.indexOf(URL) !== -1`. -/
def isActivityStreamsURL (env : Env) (url : String) : Bool :=
  env.trackableURLs.contains url

/-- `this._clearTabData()`: reset `this._tabData` keeping only
`total_history_size` and `total_bookmarks`. -/
def _clearTabData (td : TabData) : TabData :=
  { total_history_size := td.total_history_size
    total_bookmarks := td.total_bookmarks }

/-- `this._setCommonProperties(payload, url)` applied to the session payload
(`payload.session_id = this._tabData.session_id` is the identity there). -/
def _setCommonProperties (env : Env) (td : TabData) (url : String) : TabData :=
  { td with
    client_id := some env.clientID
    addon_version := some env.addonVersion
    locale := some env.locale
    page := some (pageOf url)
    experiment_id := if strTruthy env.experimentID then env.experimentID else td.experiment_id }

/-- The highlights count attached at flush time: `-1` when there is no store or
the Highlights state is errored/uninitialised, otherwise the row count. -/
def highlightsSizeOf (env : Env) : Int :=
  match env.store with
  | some s => if s.highlightsError || !s.highlightsInit then -1 else (s.highlightsRows : Int)
  | none => -1

/-- `this._initTabSession(tab, loadReason)`: keep an existing `session_id`
or draw a fresh uuid, then overwrite `url`, `tab_id`, `load_reason`. -/
def _initTabSession (st : TrackerState) (tab : Tab) (loadReason : String) : TrackerState :=
  let sidAndNext : Nat × Nat :=
    match st.tabData.session_id with
    | some s => (s, st.nextUuid)
    | none => (st.nextUuid, st.nextUuid + 1)
  { st with
    nextUuid := sidAndNext.2
    tabData :=
      { st.tabData with
        session_id := some sidAndNext.1
        url := some tab.url
        tab_id := some tab.id
        load_reason := some loadReason } }

/-- `this.navigateAwayFromPage(tab, reason)`: stamp common properties using the
stored (previous) URL of the tab, resolve `unload_reason` (a value pre-set by a
user event wins over the mechanical `reason`), attach `highlights_size`, then
either synthesise a zero-duration record (no `tab_id` recorded) or compute
`session_duration` from `start_time`; emit the snapshot and clear the state. -/
def navigateAwayFromPage (env : Env) (st : TrackerState) (tab : Tab) (reason : String) :
    Except JsError (TrackerState × List Emitted) :=
  match st.openTabs tab.id with
  | none => .error .typeError
  | some ot =>
    let td0 := _setCommonProperties env st.tabData ot.url
    let td1 := { td0 with action := some "activity_stream_session" }
    let td2 := { td1 with unload_reason := some (jsOrS td1.unload_reason reason) }
    let td3 := { td2 with highlights_size := some (highlightsSizeOf env) }
    match td3.tab_id with
    | none =>
      let stA := _initTabSession { st with tabData := td3 } tab (jsOrS td3.load_reason "none")
      let pay := { stA.tabData with session_duration := some 0, start_time := none }
      .ok ({ stA with tabData := _clearTabData pay }, [Emitted.sessionComplete pay])
    | some _ =>
      let pay : TabData :=
        match td3.start_time with
        | some t0 => { td3 with session_duration := some ((env.now : Int) - (t0 : Int)), start_time := none }
        | none => td3
      .ok ({ st with tabData := _clearTabData pay }, [Emitted.sessionComplete pay])

/-- `this.logActivate(tab)`: for a trackable URL, (re)initialise the session
(defaulting `load_reason` to `"focus"`), stamp `start_time = absPerf.now()`,
and refresh the `_openTabs` row (`url := tab.url`, `active := true`). -/
def logActivate (env : Env) (st : TrackerState) (tab : Tab) :
    Except JsError (TrackerState × List Emitted) :=
  if isActivityStreamsURL env tab.url then
    let st1 := _initTabSession st tab (jsOrS st.tabData.load_reason "focus")
    let st2 := { st1 with tabData := { st1.tabData with start_time := some env.now } }
    match st2.openTabs tab.id with
    | none => .error .typeError
    | some _ =>
      .ok ({ st2 with openTabs := mapSet st2.openTabs tab.id (some { url := tab.url, active := true }) }, [])
  else
    .ok (st, [])

/-- The second half of `logReady`: a non-activity-streams URL loaded; if it
replaced a tracked URL in the same tab, flush with reason `"navigation"`. -/
def logReadyNavCheck (env : Env) (st : TrackerState) (tab : Tab) :
    Except JsError (TrackerState × List Emitted) :=
  match st.openTabs tab.id with
  | some ot =>
    if st.tabData.tab_id = some tab.id ∧ isActivityStreamsURL env ot.url then
      navigateAwayFromPage env st tab "navigation"
    else
      .ok (st, [])
  | none => .ok (st, [])

/-- `this.logReady(tab)`: for the active trackable tab, set
`load_reason = "newtab"` on a first load, flush-and-restart with `"refresh"`
when a session is in flight with no recorded duration, then activate;
otherwise check for a navigation away.  Note `tabs.activeTab.id` throws when
there is no active tab (only reached when `tab.url` is trackable). -/
def logReady (env : Env) (st : TrackerState) (tab : Tab) :
    Except JsError (TrackerState × List Emitted) :=
  if isActivityStreamsURL env tab.url then
    match env.activeTab with
    | none => .error .typeError
    | some act =>
      if act.id = tab.id then
        let stepRes : Except JsError (TrackerState × List Emitted) :=
          if !strTruthy st.tabData.url then
            .ok ({ st with tabData := { st.tabData with load_reason := some "newtab" } }, [])
          else if !numTruthy st.tabData.session_duration then
            match navigateAwayFromPage env st tab "refresh" with
            | .error e => .error e
            | .ok (st1, out1) =>
              .ok ({ st1 with tabData := { st1.tabData with load_reason := some "refresh" } }, out1)
          else
            .ok (st, [])
        match stepRes with
        | .error e => .error e
        | .ok (stm, out1) =>
          match logActivate env stm tab with
          | .error e => .error e
          | .ok (st3, out2) => .ok (st3, out1 ++ out2)
      else
        logReadyNavCheck env st tab
  else
    logReadyNavCheck env st tab

/-- `this.logPageShow(tab)`: delegate to `logReady` only when the URL is
trackable and no `load_reason` has been set (the back-button path). -/
def logPageShow (env : Env) (st : TrackerState) (tab : Tab) :
    Except JsError (TrackerState × List Emitted) :=
  if isActivityStreamsURL env tab.url && !strTruthy st.tabData.load_reason then
    logReady env st tab
  else
    .ok (st, [])

/-- `this.logDeactivate(tab)`: no-op when the whole window is closing (no
active tab anywhere); otherwise flush a trackable tab with `"unfocus"` and mark
its row inactive. -/
def logDeactivate (env : Env) (st : TrackerState) (tab : Tab) :
    Except JsError (TrackerState × List Emitted) :=
  match env.activeTab with
  | none => .ok (st, [])
  | some _ =>
    if isActivityStreamsURL env tab.url then
      match navigateAwayFromPage env st tab "unfocus" with
      | .error e => .error e
      | .ok (st1, out) =>
        match st1.openTabs tab.id with
        | none => .error .typeError
        | some ot =>
          .ok ({ st1 with openTabs := mapSet st1.openTabs tab.id (some { ot with active := false }) }, out)
    else
      .ok (st, [])

/-- `this.logClose(tab)`: for a trackable URL, return early (emitting nothing
and *not* deleting the row) when the row is inactive, else flush with
`"close"`; the `delete this._openTabs[tab.id]` at the end runs only when that
early return was not taken. -/
def logClose (env : Env) (st : TrackerState) (tab : Tab) :
    Except JsError (TrackerState × List Emitted) :=
  if isActivityStreamsURL env tab.url then
    match st.openTabs tab.id with
    | none => .error .typeError
    | some ot =>
      if !ot.active then
        .ok (st, [])
      else
        match navigateAwayFromPage env st tab "close" with
        | .error e => .error e
        | .ok (st1, out) =>
          .ok ({ st1 with openTabs := mapSet st1.openTabs tab.id none }, out)
  else
    .ok ({ st with openTabs := mapSet st.openTabs tab.id none }, [])

/-- `this.onOpen(tab)`: register the `_openTabs` row, record `tab_id`, snapshot
the Places counters when a store is present, and store a fresh session id. -/
def onOpen (env : Env) (st : TrackerState) (tab : Tab) : TrackerState × List Emitted :=
  let td1 := { st.tabData with tab_id := some tab.id }
  let td2 :=
    match env.store with
    | some s =>
      { td1 with total_history_size := some s.historySize, total_bookmarks := some s.bookmarksSize }
    | none => td1
  let td3 := { td2 with session_id := some st.nextUuid }
  ({ st with
      openTabs := mapSet st.openTabs tab.id (some { url := tab.url, active := true })
      tabData := td3
      nextUuid := st.nextUuid + 1 }, [])

/-- `this.handleUserEvent(payload)`: `payload.tab_id = tabs.activeTab.id`
throws when there is no active tab; otherwise stamp and emit, then pre-set
`unload_reason` for SEARCH/CLICK events. -/
def handleUserEvent (env : Env) (st : TrackerState) (event : String) :
    Except JsError (TrackerState × List Emitted) :=
  match env.activeTab with
  | none => .error .typeError
  | some act =>
    let out := [Emitted.userAction event act.id st.tabData.session_id (pageOf act.url)]
    if event = "SEARCH" ∨ event = "CLICK" then
      .ok ({ st with tabData := { st.tabData with unload_reason := some (toLowerStr event) } }, out)
    else
      .ok (st, out)

/-- `this.handleUndesiredEvent(payload)`: `payload.tab_id = tabs.activeTab.id`
throws when there is no active tab; otherwise default `value` to 0 and emit. -/
def handleUndesiredEvent (env : Env) (st : TrackerState) (event : String) (value : Option Int) :
    Except JsError (TrackerState × List Emitted) :=
  match env.activeTab with
  | none => .error .typeError
  | some act =>
    .ok (st, [Emitted.undesired event (value.getD 0) act.id st.tabData.session_id (pageOf act.url)])

/-- `this.handlePerformanceEvent(eventData, eventName, value)`: short-circuit
(emit nothing, change nothing) when there is no active tab; never throws. -/
def handlePerformanceEvent (env : Env) (st : TrackerState) (eventName : String) (value : Int) :
    TrackerState × List Emitted :=
  match env.activeTab with
  | none => (st, [])
  | some act =>
    (st, [Emitted.performance eventName value act.id st.tabData.session_id (pageOf act.url)])

/-- Emissions of a fallible handler result (`none` on a thrown exception). -/
def okOut : Except JsError (TrackerState × List Emitted) → Option (List Emitted)
  | .ok (_, out) => some out
  | .error _ => none

/-- Post-state of a fallible handler result (`none` on a thrown exception). -/
def okSt : Except JsError (TrackerState × List Emitted) → Option TrackerState
  | .ok (s, _) => some s
  | .error _ => none

/-- The `unload_reason` of a session-complete emission. -/
def emittedUnloadReason : Emitted → Option String
  | .sessionComplete p => p.unload_reason
  | _ => none

/-- The `session_duration` of a session-complete emission. -/
def emittedDuration : Emitted → Option Int
  | .sessionComplete p => p.session_duration
  | _ => none

/-! ### Concrete fixtures for witnesses and counterexamples -/

/-- The tracked activity-streams URL used in concrete scenarios. -/
def ntURL : String := "about:newtab"

/-- A tab showing the tracked URL. -/
def tab1 : Tab := { id := 1, url := ntURL }

/-- The environment of the concrete scenarios: `tab1` is active and tracked. -/
def baseEnv : Env :=
  { activeTab := some tab1
    trackableURLs := [ntURL]
    store := none
    now := 100
    clientID := "client"
    addonVersion := "1.0.0"
    locale := "en-US"
    experimentID := none }

/-- Same environment with no active tab anywhere (window closing). -/
def noTabEnv : Env :=
  { baseEnv with activeTab := none }

/-- A state with a session in flight on `tab1` (activated at time 40). -/
def activeSt : TrackerState :=
  { tabData :=
      { session_id := some 0
        url := some ntURL
        tab_id := some 1
        load_reason := some "newtab"
        start_time := some 40 }
    openTabs := mapSet (fun _ => none) 1 (some { url := ntURL, active := true })
    nextUuid := 1 }

/-- The empty initial state. -/
def emptySt : TrackerState :=
  { tabData := {}, openTabs := fun _ => none, nextUuid := 0 }

/-! ### Claim theorems -/

/-- **C6**: a call to `logDeactivate` in a state where no tab is active
anywhere (the whole window is closing) emits no record and leaves the session
state and the `_openTabs` table unchanged, so the session is never
double-flushed (the close handler takes care of it). -/
theorem logDeactivate_window_closing (env : Env) (st : TrackerState) (tab : Tab)
    (h : env.activeTab = none) :
    logDeactivate env st tab = .ok (st, []) := by
  simp [logDeactivate, h]

/-- Witness for C6 at a concrete window-closing environment and in-flight
session state. -/
theorem logDeactivate_window_closing_witness :
    noTabEnv.activeTab = none ∧ logDeactivate noTabEnv activeSt tab1 = .ok (activeSt, []) :=
  ⟨by decide, logDeactivate_window_closing noTabEnv activeSt tab1 (by decide)⟩

/-- **C10**: `logPageShow` in a state where the session's `load_reason` is
already (truthily) set, or on a tab whose URL is not tracked, emits nothing and
leaves the state unchanged — a ready/pageshow pair for one navigation starts
exactly one session. -/
theorem logPageShow_noop (env : Env) (st : TrackerState) (tab : Tab)
    (h : strTruthy st.tabData.load_reason = true ∨ isActivityStreamsURL env tab.url = false) :
    logPageShow env st tab = .ok (st, []) := by
  unfold logPageShow
  rcases h with h | h <;> simp [h]

/-- Witness for C10: immediately after `onReady` activated `tab1`,
`load_reason` is `"newtab"` and a `pageshow` for the same navigation is a
no-op. -/
theorem logPageShow_noop_witness :
    (strTruthy activeSt.tabData.load_reason = true ∨
      isActivityStreamsURL baseEnv tab1.url = false) ∧
    logPageShow baseEnv activeSt tab1 = .ok (activeSt, []) :=
  ⟨Or.inl (by decide), logPageShow_noop baseEnv activeSt tab1 (Or.inl (by decide))⟩

/-- **C9**: `onOpen`, in every state, overwrites the live session's `tab_id`
with the opened tab's id and its `session_id` with a fresh uuid (the unused
counter value), emits nothing, and flushes nothing — the in-flight session
fields (`url`, `start_time`, `load_reason`, `unload_reason`,
`session_duration`) are silently re-attributed, not flushed. -/
theorem onOpen_reattributes_session (env : Env) (st : TrackerState) (tab : Tab) :
    (onOpen env st tab).2 = [] ∧
    (onOpen env st tab).1.tabData.tab_id = some tab.id ∧
    (onOpen env st tab).1.tabData.session_id = some st.nextUuid ∧
    (onOpen env st tab).1.nextUuid = st.nextUuid + 1 ∧
    (onOpen env st tab).1.tabData.url = st.tabData.url ∧
    (onOpen env st tab).1.tabData.start_time = st.tabData.start_time ∧
    (onOpen env st tab).1.tabData.load_reason = st.tabData.load_reason ∧
    (onOpen env st tab).1.tabData.unload_reason = st.tabData.unload_reason ∧
    (onOpen env st tab).1.tabData.session_duration = st.tabData.session_duration ∧
    (onOpen env st tab).1.openTabs tab.id = some { url := tab.url, active := true } := by
  unfold onOpen
  cases env.store <;> simp [mapSet]

/-- Helper: whenever the `_openTabs` row exists, `navigateAwayFromPage`
succeeds, emits exactly one session-complete record carrying
`unload_reason = this._tabData.unload_reason || reason`, leaves the
`_openTabs` table untouched, and clears the session state. -/
theorem flush_ok (env : Env) (st : TrackerState) (tab : Tab) (ot : OpenTab)
    (reason : String) (hot : st.openTabs tab.id = some ot) :
    ∃ st' pay, navigateAwayFromPage env st tab reason = .ok (st', [.sessionComplete pay]) ∧
      pay.unload_reason = some (jsOrS st.tabData.unload_reason reason) ∧
      st'.openTabs = st.openTabs ∧
      st'.tabData.session_id = none ∧ st'.tabData.url = none ∧
      st'.tabData.tab_id = none ∧ st'.tabData.load_reason = none ∧
      st'.tabData.start_time = none ∧ st'.tabData.unload_reason = none ∧
      st'.tabData.session_duration = none := by
  unfold navigateAwayFromPage
  simp only [hot, _setCommonProperties]
  cases htid : st.tabData.tab_id with
  | none =>
    simp only [htid]
    refine ⟨_, _, rfl, ?_, ?_, ?_, ?_, ?_, ?_, ?_, ?_, ?_⟩ <;>
      simp [_initTabSession, _clearTabData]
  | some i =>
    simp only [htid]
    cases hst : st.tabData.start_time with
    | none =>
      simp only [hst]
      refine ⟨_, _, rfl, ?_, ?_, ?_, ?_, ?_, ?_, ?_, ?_, ?_⟩ <;> simp [_clearTabData]
    | some t0 =>
      simp only [hst]
      refine ⟨_, _, rfl, ?_, ?_, ?_, ?_, ?_, ?_, ?_, ?_, ?_⟩ <;> simp [_clearTabData]

/-- Helper: `logActivate` on a trackable URL with an existing `_openTabs` row
never emits, (re)initialises the session fields, stamps `start_time`, and
marks the row active; a `session_id` already present is kept, an absent one is
drawn fresh from the uuid counter. -/
theorem logActivate_ok (env : Env) (st : TrackerState) (tab : Tab) (ot : OpenTab)
    (htrack : isActivityStreamsURL env tab.url = true)
    (hot : st.openTabs tab.id = some ot) :
    ∃ st', logActivate env st tab = .ok (st', []) ∧
      st'.tabData.load_reason = some (jsOrS st.tabData.load_reason "focus") ∧
      st'.tabData.start_time = some env.now ∧
      st'.tabData.url = some tab.url ∧
      st'.tabData.tab_id = some tab.id ∧
      (∀ s, st.tabData.session_id = some s → st'.tabData.session_id = some s) ∧
      (st.tabData.session_id = none → st'.tabData.session_id = some st.nextUuid) ∧
      st'.openTabs tab.id = some { url := tab.url, active := true } := by
  unfold logActivate
  simp only [htrack, if_true]
  have hot' : (_initTabSession st tab (jsOrS st.tabData.load_reason "focus")).openTabs tab.id
      = some ot := by
    simpa [_initTabSession] using hot
  simp only [_initTabSession] at hot' ⊢
  simp only [hot']
  cases hsid : st.tabData.session_id with
  | none =>
    refine ⟨_, rfl, ?_, ?_, ?_, ?_, ?_, ?_, ?_⟩ <;> simp [hsid, mapSet]
  | some s =>
    refine ⟨_, rfl, ?_, ?_, ?_, ?_, ?_, ?_, ?_⟩ <;> simp [hsid, mapSet]

/-- **C2**: a user event of kind SEARCH or CLICK sets the session's
`unload_reason` to the lowercase event name, and any subsequent flush emits a
session-complete record whose `unload_reason` is that lowercase event name
rather than the mechanical reason passed to the flush. -/
theorem userEvent_overrides_flush_reason (env env2 : Env) (st : TrackerState) (act tab : Tab)
    (event reason : String)
    (hact : env.activeTab = some act)
    (hev : event = "SEARCH" ∨ event = "CLICK") :
    ∃ st1 r, handleUserEvent env st event = .ok (st1, [r]) ∧
      st1.tabData.unload_reason = some (toLowerStr event) ∧
      ∀ ot2, st1.openTabs tab.id = some ot2 →
        ∃ st2 pay,
          navigateAwayFromPage env2 st1 tab reason = .ok (st2, [.sessionComplete pay]) ∧
          pay.unload_reason = some (toLowerStr event) := by
  have hne : ¬ toLowerStr event = "" := by
    rcases hev with h | h <;> subst h <;> decide
  have h1 : handleUserEvent env st event =
      .ok ({ st with tabData := { st.tabData with unload_reason := some (toLowerStr event) } },
        [Emitted.userAction event act.id st.tabData.session_id (pageOf act.url)]) := by
    unfold handleUserEvent
    simp only [hact]
    rw [if_pos hev]
  refine ⟨_, _, h1, by simp, ?_⟩
  intro ot2 hot2
  obtain ⟨st2, pay, h2, h3, -⟩ := flush_ok env2 _ tab ot2 reason hot2
  refine ⟨st2, pay, h2, ?_⟩
  rw [h3]
  simp [jsOrS, hne]

/-- Witness for C2 at a concrete SEARCH event followed by a navigation flush. -/
theorem userEvent_overrides_flush_reason_witness :
    ∃ st1 r, handleUserEvent baseEnv activeSt "SEARCH" = .ok (st1, [r]) ∧
      st1.tabData.unload_reason = some (toLowerStr "SEARCH") ∧
      ∀ ot2, st1.openTabs tab1.id = some ot2 →
        ∃ st2 pay,
          navigateAwayFromPage baseEnv st1 tab1 "navigation" = .ok (st2, [.sessionComplete pay]) ∧
          pay.unload_reason = some (toLowerStr "SEARCH") :=
  userEvent_overrides_flush_reason baseEnv baseEnv activeSt tab1 tab1 "SEARCH" "navigation"
    (by decide) (Or.inl rfl)

/-- **C5**: a flush in a state where no `tab_id` was recorded (the page never
finished loading) and no `loadReason` had been set emits a record with
`session_duration = 0` and `load_reason = "none"`, and then resets the session
state. -/
theorem flush_never_loaded (env : Env) (st : TrackerState) (tab : Tab) (ot : OpenTab)
    (reason : String)
    (hot : st.openTabs tab.id = some ot)
    (htid : st.tabData.tab_id = none)
    (hlr : st.tabData.load_reason = none) :
    ∃ st' pay, navigateAwayFromPage env st tab reason = .ok (st', [.sessionComplete pay]) ∧
      pay.session_duration = some 0 ∧ pay.load_reason = some "none" ∧
      pay.start_time = none ∧
      st'.tabData.url = none ∧ st'.tabData.tab_id = none ∧
      st'.tabData.session_id = none ∧ st'.tabData.start_time = none ∧
      st'.tabData.load_reason = none ∧ st'.tabData.unload_reason = none ∧
      st'.tabData.session_duration = none := by
  unfold navigateAwayFromPage
  simp only [hot, _setCommonProperties, htid]
  refine ⟨_, _, rfl, ?_⟩
  simp [_initTabSession, _clearTabData, jsOrS, hlr]

/-- Witness for C5: closing a tracked tab whose page never loaded (empty
session state apart from the `_openTabs` row). -/
theorem flush_never_loaded_witness :
    ∃ st' pay,
      navigateAwayFromPage baseEnv
        { emptySt with openTabs := mapSet emptySt.openTabs 1 (some { url := ntURL, active := true }) }
        tab1 "close" = .ok (st', [.sessionComplete pay]) ∧
      pay.session_duration = some 0 ∧ pay.load_reason = some "none" ∧
      pay.start_time = none ∧
      st'.tabData.url = none ∧ st'.tabData.tab_id = none ∧
      st'.tabData.session_id = none ∧ st'.tabData.start_time = none ∧
      st'.tabData.load_reason = none ∧ st'.tabData.unload_reason = none ∧
      st'.tabData.session_duration = none :=
  flush_never_loaded baseEnv _ tab1 { url := ntURL, active := true } "close"
    (by decide) (by decide) (by decide)

/-- A state like `activeSt` but where a SEARCH user event has pre-set
`unload_reason = "search"`. -/
def searchSt : TrackerState :=
  { activeSt with tabData := { activeSt.tabData with unload_reason := some "search" } }

/-- **C1 (counterexample)**: in a state where a session is active (`url` set),
no `session_duration` is recorded, but a SEARCH user event has pre-set
`unload_reason`, a further `logReady` for the active tracked tab emits its one
session-complete record with `unload_reason = "search"`, not `"refresh"` — so
the claim as stated (always `"refresh"`) is false. -/
theorem logReady_refresh_cex :
    strTruthy searchSt.tabData.url = true ∧
    numTruthy searchSt.tabData.session_duration = false ∧
    isActivityStreamsURL baseEnv tab1.url = true ∧
    baseEnv.activeTab = some tab1 ∧
    (okOut (logReady baseEnv searchSt tab1)).map (List.map emittedUnloadReason) =
      some [some "search"] := by decide

/-- **C1 (amended)**: in a state where a session is active (`url` set), no
`session_duration` has been recorded, and no user event has pre-set an
`unloadReason`, a further `logReady` for the active tracked tab emits exactly
one session-complete record with `unload_reason = "refresh"` and then starts a
new session with `load_reason = "refresh"` and a fresh `start_time` stamped by
the subsequent activate. -/
theorem logReady_refresh (env : Env) (st : TrackerState) (tab act : Tab) (ot : OpenTab)
    (hact : env.activeTab = some act)
    (hid : act.id = tab.id)
    (htrack : isActivityStreamsURL env tab.url = true)
    (hurl : strTruthy st.tabData.url = true)
    (hsd : numTruthy st.tabData.session_duration = false)
    (hun : st.tabData.unload_reason = none)
    (hot : st.openTabs tab.id = some ot) :
    ∃ st' pay, logReady env st tab = .ok (st', [.sessionComplete pay]) ∧
      pay.unload_reason = some "refresh" ∧
      st'.tabData.load_reason = some "refresh" ∧
      st'.tabData.start_time = some env.now ∧
      st'.tabData.url = some tab.url ∧
      st'.tabData.tab_id = some tab.id := by
  obtain ⟨st1, pay, hfl, hulr, hopen, hrest⟩ := flush_ok env st tab ot "refresh" hot
  have hot1 :
      ({ st1 with tabData := { st1.tabData with load_reason := some "refresh" } } :
        TrackerState).openTabs tab.id = some ot := by
    show st1.openTabs tab.id = some ot
    rw [hopen]; exact hot
  obtain ⟨st3, hact3, hlr3, hst3, hurl3, htid3, -⟩ :=
    logActivate_ok env _ tab ot htrack hot1
  unfold logReady
  simp only [htrack, hact, hid, if_true, eq_self_iff_true, hurl, hsd, Bool.not_true,
    Bool.not_false, Bool.false_eq_true, if_false, hfl, hact3]
  refine ⟨st3, pay, by simp, ?_, ?_, hst3, hurl3, htid3⟩
  · rw [hulr, hun]; rfl
  · rw [hlr3]; rfl

/-- Witness for C1 (amended): a live session on `tab1` (no pre-set
`unload_reason`) receives a further `ready`. -/
theorem logReady_refresh_witness :
    ∃ st' pay, logReady baseEnv activeSt tab1 = .ok (st', [.sessionComplete pay]) ∧
      pay.unload_reason = some "refresh" ∧
      st'.tabData.load_reason = some "refresh" ∧
      st'.tabData.start_time = some baseEnv.now ∧
      st'.tabData.url = some tab1.url ∧
      st'.tabData.tab_id = some tab1.id :=
  logReady_refresh baseEnv activeSt tab1 tab1 { url := ntURL, active := true }
    (by decide) (by decide) (by decide) (by decide) (by decide) (by decide) (by decide)

/-- A state whose page never finished loading: empty session data, one tracked
`_openTabs` row. -/
def neverLoadedSt : TrackerState :=
  { emptySt with openTabs := mapSet emptySt.openTabs 1 (some { url := ntURL, active := true }) }

/-- **C3 (counterexample)**: flushing a session whose `tab_id` was never
recorded emits a record with `session_duration = 0` present even though
`start_time` had never been set — refuting "`session_duration` is present iff
`start_time` had been set before the flush". -/
theorem flush_duration_cex :
    neverLoadedSt.tabData.start_time = none ∧
    (okOut (navigateAwayFromPage baseEnv neverLoadedSt tab1 "unfocus")).map
      (List.map emittedDuration) = some [some 0] := by decide

/-- **C3 (amended)**: every session-complete record emitted by a flush has
`session_duration ≥ 0` (the clock being monotonic, `start_time ≤ now`), and —
when a `tab_id` had been recorded — `session_duration` is present iff
`start_time` had been set before the flush; in the never-loaded case
(`tab_id` unset) a zero `session_duration` is always present.  (The pre-state
carries no stale `session_duration`: every flush clears it and nothing else
sets it.) -/
theorem flush_duration (env : Env) (st : TrackerState) (tab : Tab) (ot : OpenTab)
    (reason : String)
    (hot : st.openTabs tab.id = some ot)
    (hmono : ∀ t0, st.tabData.start_time = some t0 → t0 ≤ env.now)
    (hsd : st.tabData.session_duration = none) :
    ∃ st' pay, navigateAwayFromPage env st tab reason = .ok (st', [.sessionComplete pay]) ∧
      (∀ d, pay.session_duration = some d → 0 ≤ d) ∧
      (∀ i, st.tabData.tab_id = some i →
        (pay.session_duration.isSome ↔ st.tabData.start_time.isSome)) ∧
      (st.tabData.tab_id = none → pay.session_duration = some 0) := by
  unfold navigateAwayFromPage
  simp only [hot, _setCommonProperties]
  cases htid : st.tabData.tab_id with
  | none =>
    simp only [htid]
    refine ⟨_, _, rfl, ?_, ?_, ?_⟩
    · intro d hd
      simp at hd
      omega
    · intro i hi
      simp [htid] at hi
    · intro _
      simp
  | some i =>
    simp only [htid]
    cases hst : st.tabData.start_time with
    | none =>
      simp only [hst]
      refine ⟨_, _, rfl, ?_, ?_, ?_⟩
      · intro d hd
        simp [hsd] at hd
      · intro j _
        simp [hsd, hst]
      · intro hnone
        simp [htid] at hnone
    | some t0 =>
      simp only [hst]
      refine ⟨_, _, rfl, ?_, ?_, ?_⟩
      · intro d hd
        simp at hd
        have := hmono t0 hst
        omega
      · intro j _
        simp [hst]
      · intro hnone
        simp [htid] at hnone

/-- Witness for C3 (amended) on the in-flight session `activeSt`
(`start_time = 40 ≤ now = 100`). -/
theorem flush_duration_witness :
    ∃ st' pay,
      navigateAwayFromPage baseEnv activeSt tab1 "unfocus" = .ok (st', [.sessionComplete pay]) ∧
      (∀ d, pay.session_duration = some d → 0 ≤ d) ∧
      (∀ i, activeSt.tabData.tab_id = some i →
        (pay.session_duration.isSome ↔ activeSt.tabData.start_time.isSome)) ∧
      (activeSt.tabData.tab_id = none → pay.session_duration = some 0) :=
  flush_duration baseEnv activeSt tab1 { url := ntURL, active := true } "unfocus"
    (by decide)
    (by
      intro t0 ht
      have ht' : (40 : Nat) = t0 := by simpa [activeSt] using ht
      have hnow : baseEnv.now = 100 := rfl
      omega)
    (by decide)

/-- A state with a session on `tab1` whose `_openTabs` row was deactivated
(an `unfocus` flush already ran). -/
def inactiveSt : TrackerState :=
  { emptySt with openTabs := mapSet emptySt.openTabs 1 (some { url := ntURL, active := false }) }

/-- **C4 (counterexample)**: closing a tracked tab whose row is inactive emits
nothing — as claimed — but the early return also skips
`delete this._openTabs[tab.id]`, so the row is *not* removed, refuting "in all
cases the TrackedTab row is removed afterward". -/
theorem logClose_cex :
    isActivityStreamsURL baseEnv tab1.url = true ∧
    (inactiveSt.openTabs tab1.id).isSome = true ∧
    okOut (logClose baseEnv inactiveSt tab1) = some [] ∧
    (okSt (logClose baseEnv inactiveSt tab1)).map (fun s => (s.openTabs tab1.id).isSome) =
      some true := by decide

/-- **C4 (amended)**: closing a still-active tracked tab (no user-set
`unloadReason` pending) emits exactly one record with
`unload_reason = "close"` and removes the row; closing a previously-deactivated
tracked tab emits nothing but — early return — leaves the row in place; closing
an untracked tab emits nothing and removes the row. -/
theorem logClose_behavior (env : Env) (st : TrackerState) (tab : Tab) (ot : OpenTab)
    (hot : st.openTabs tab.id = some ot)
    (hun : st.tabData.unload_reason = none) :
    (isActivityStreamsURL env tab.url = true → ot.active = true →
      ∃ st' pay, logClose env st tab = .ok (st', [.sessionComplete pay]) ∧
        pay.unload_reason = some "close" ∧ st'.openTabs tab.id = none) ∧
    (isActivityStreamsURL env tab.url = true → ot.active = false →
      logClose env st tab = .ok (st, [])) ∧
    (isActivityStreamsURL env tab.url = false →
      ∃ st', logClose env st tab = .ok (st', []) ∧ st'.openTabs tab.id = none ∧
        st'.tabData = st.tabData) := by
  refine ⟨?_, ?_, ?_⟩
  · intro htrack hac
    obtain ⟨st1, pay, hfl, hulr, -⟩ := flush_ok env st tab ot "close" hot
    unfold logClose
    simp only [htrack, if_true, hot, hac, Bool.not_true, Bool.false_eq_true, if_false, hfl]
    refine ⟨_, pay, rfl, ?_, by simp [mapSet]⟩
    rw [hulr, hun]
    rfl
  · intro htrack hac
    unfold logClose
    simp only [htrack, if_true, hot, hac, Bool.not_false]
  · intro htrack
    unfold logClose
    simp only [htrack, Bool.false_eq_true, if_false]
    exact ⟨_, rfl, by simp [mapSet], rfl⟩

/-- Witness for C4 (amended) on the still-active row of `activeSt`. -/
theorem logClose_behavior_witness :
    (isActivityStreamsURL baseEnv tab1.url = true →
      ({ url := ntURL, active := true } : OpenTab).active = true →
      ∃ st' pay, logClose baseEnv activeSt tab1 = .ok (st', [.sessionComplete pay]) ∧
        pay.unload_reason = some "close" ∧ st'.openTabs tab1.id = none) ∧
    (isActivityStreamsURL baseEnv tab1.url = true →
      ({ url := ntURL, active := true } : OpenTab).active = false →
      logClose baseEnv activeSt tab1 = .ok (activeSt, [])) ∧
    (isActivityStreamsURL baseEnv tab1.url = false →
      ∃ st', logClose baseEnv activeSt tab1 = .ok (st', []) ∧ st'.openTabs tab1.id = none ∧
        st'.tabData = activeSt.tabData) :=
  logClose_behavior baseEnv activeSt tab1 { url := ntURL, active := true }
    (by decide) (by decide)

/-- **C7 (counterexample)**: `sessionId` is *not* preserved across a refresh:
the refresh flush inside `logReady` clears it and the subsequent activate draws
a fresh uuid — concretely, the session before the refresh has id 0 and the
session after it has id 1. -/
theorem sessionId_preserved_cex :
    activeSt.tabData.session_id = some 0 ∧
    (okSt (logReady baseEnv activeSt tab1)).map (fun s => s.tabData.session_id) =
      some (some 1) := by decide

/-- **C7 (amended)**: the live `SessionState` holds at most one `startTime`
(a single optional field); a `sessionId` already set is preserved by
`_initTabSession` (so the id drawn at tab open survives to the first
activate), but *every* flush — including the refresh/navigation flush within
the same tab — clears `sessionId`, and the next session draws a fresh uuid
(the unused counter value). -/
theorem sessionId_lifecycle (env : Env) (st : TrackerState) (tab : Tab) (ot : OpenTab)
    (reason loadReason : String) (hot : st.openTabs tab.id = some ot) :
    (∀ s, st.tabData.session_id = some s →
      (_initTabSession st tab loadReason).tabData.session_id = some s) ∧
    (st.tabData.session_id = none →
      (_initTabSession st tab loadReason).tabData.session_id = some st.nextUuid) ∧
    (∃ st' pay, navigateAwayFromPage env st tab reason = .ok (st', [.sessionComplete pay]) ∧
      st'.tabData.session_id = none) := by
  refine ⟨?_, ?_, ?_⟩
  · intro s hs
    simp [_initTabSession, hs]
  · intro hs
    simp [_initTabSession, hs]
  · obtain ⟨st', pay, hfl, -, -, hsid, -⟩ := flush_ok env st tab ot reason hot
    exact ⟨st', pay, hfl, hsid⟩

/-- Witness for C7 (amended) on `activeSt` and a `"refresh"` flush. -/
theorem sessionId_lifecycle_witness :
    (∀ s, activeSt.tabData.session_id = some s →
      (_initTabSession activeSt tab1 "newtab").tabData.session_id = some s) ∧
    (activeSt.tabData.session_id = none →
      (_initTabSession activeSt tab1 "newtab").tabData.session_id = some activeSt.nextUuid) ∧
    (∃ st' pay,
      navigateAwayFromPage baseEnv activeSt tab1 "refresh" = .ok (st', [.sessionComplete pay]) ∧
      st'.tabData.session_id = none) :=
  sessionId_lifecycle baseEnv activeSt tab1 { url := ntURL, active := true } "refresh" "newtab"
    (by decide)

/-- **C8 (counterexample)**: `handleUserEvent` invoked with no active tab
dereferences `tabs.activeTab.id` and throws a TypeError instead of completing
— refuting "recordUserEvent / recordUndesiredEvent complete without raising
when invoked with no active tab". -/
theorem handleUserEvent_throws_cex :
    noTabEnv.activeTab = none ∧
    handleUserEvent noTabEnv activeSt "SEARCH" = .error .typeError ∧
    handleUndesiredEvent noTabEnv activeSt "SLOW_ADDON_DETECTED" none = .error .typeError := by
  refine ⟨by decide, rfl, rfl⟩

/-- **C8 (amended)**: with no active tab, a performance event is silently
dropped (no emission, no state change, no error), while `handleUserEvent` and
`handleUndesiredEvent` throw a TypeError on `tabs.activeTab.id`. -/
theorem no_activeTab_behavior (env : Env) (st : TrackerState) (name ev ev2 : String)
    (v : Int) (value : Option Int)
    (h : env.activeTab = none) :
    handlePerformanceEvent env st name v = (st, []) ∧
    handleUserEvent env st ev = .error .typeError ∧
    handleUndesiredEvent env st ev2 value = .error .typeError := by
  unfold handlePerformanceEvent handleUserEvent handleUndesiredEvent
  simp [h]

/-- Witness for C8 (amended) at the concrete no-active-tab environment. -/
theorem no_activeTab_behavior_witness :
    handlePerformanceEvent noTabEnv activeSt "TAB_READY" 5 = (activeSt, []) ∧
    handleUserEvent noTabEnv activeSt "CLICK" = .error .typeError ∧
    handleUndesiredEvent noTabEnv activeSt "HIDE_LOADER" (some 2) = .error .typeError :=
  no_activeTab_behavior noTabEnv activeSt "TAB_READY" "CLICK" "HIDE_LOADER" 5 (some 2) (by decide)

end TabTrackerModel
